import Mathlib

/-!
Verification development for the Santa-tracker CoT broadcaster
(src/santa_tracker.py).  The Python source is embedded shallowly:

* route destinations become the `Dest` structure (the JSON `location`
  object is flattened into `lat`/`lon`; fields that the code reads with
  `.get(...)` and falsy fallbacks become `Option` fields, and the falsy
  handling of `x or y` is reproduced explicitly);
* epoch-millisecond instants are `ℤ`;
* Python float arithmetic is idealized as exact arithmetic: `ℚ` where a
  function only uses field operations, `ℝ` where trigonometry is involved;
* the Python banker rounding `round` is `pyRound`, the Python float `%` is `pymod`,
  `math.atan2` is `atan2`;
* the CoT XML documents produced by `xml.etree.ElementTree` become the
  two-level `XEvent` tree (the trees built by this program never nest
  deeper), and ambient effects (wall clock, `uuid.uuid4()`) are threaded
  through an explicit `Env`;
* each transport sink becomes a state machine whose network is an oracle
  list of write outcomes.
-/

namespace Santa

/-- One destination record of the route JSON, as read by the code.
`arrival`/`departure`/`presentsDelivered` are read with `d.get(..., 0) or 0`
style fallbacks, hence `Option`; the `lat`/`lng` of the `location` object are
flattened (the code indexes them unconditionally in `get_latlon`). -/
structure Dest where
  id : Option String
  arrival : Option ℤ
  departure : Option ℤ
  lat : ℚ
  lon : ℚ
  presentsDelivered : Option ℤ
  city : Option String
  region : Option String
  deriving DecidableEq, Repr

instance : Inhabited Dest := ⟨⟨none, none, none, 0, 0, none, none, none⟩⟩

/-- Python `int(d.get("arrival", 0) or 0)`. -/
def destArr (d : Dest) : ℤ := d.arrival.getD 0

/-- Python `int(d.get("departure", arr) or arr)` from `get_arr_dep` in
`santa_pos_from_route`: a missing or falsy (zero) departure falls back to
the arrival. -/
def destDep (d : Dest) : ℤ :=
  match d.departure with
  | none => destArr d
  | some v => if v = 0 then destArr d else v

/-- Python `sorted(dests, key=lambda d: int(d.get("arrival", 0) or 0))` — a stable
sort by arrival time. -/
def sortDests (l : List Dest) : List Dest :=
  List.insertionSort (fun a b => destArr a ≤ destArr b) l

/-- The one-time "historic year" schedule shift of `santa_pos_from_route`:
only computed when `takeoff_ms` is truthy, from the first (sorted)
destination departure per `get_arr_dep`. -/
def computeShiftPos (dests : List Dest) (takeoffMs : Option ℤ) : ℤ :=
  match takeoffMs with
  | none => 0
  | some t =>
    if t = 0 then 0
    else
      match dests with
      | [] => 0
      | d :: _ => if 7 * 24 * 3600 * 1000 < |destDep d - t| then t - destDep d else 0

/-- Python `int(first.get("departure", first.get("arrival", 0) or 0) or 0)` from
`_compute_shift_ms`: here a present-but-zero departure stays `0` (the outer
`or 0`), unlike `get_arr_dep`. -/
def shiftFirstDep (d : Dest) : ℤ := d.departure.getD (destArr d)

/-- Python `_compute_shift_ms(dests, takeoff_ms)`. -/
def computeShiftPdl (dests : List Dest) (takeoffMs : Option ℤ) : ℤ :=
  match dests, takeoffMs with
  | [], _ => 0
  | _, none => 0
  | d :: _, some t =>
    if t = 0 then 0
    else if 7 * 24 * 3600 * 1000 < |shiftFirstDep d - t| then t - shiftFirstDep d else 0

/-- Python `_shifted_arr_dep_ms(d, shift_ms)`.  Note the quirk of the source: the
fallback for a missing/falsy departure is `arr`, which already includes the
shift, and the shift is then added again. -/
def shiftedArrDepPdl (d : Dest) (shift : ℤ) : ℤ × ℤ :=
  let arr := d.arrival.getD 0 + shift
  let dep := (match d.departure with
              | none => arr
              | some v => if v = 0 then arr else v) + shift
  (arr, dep)

/-- Which return site of `santa_pos_from_route` produced the result
(the trajectory phase of the spec). -/
inductive Phase
  | preStart
  | onGround
  | inTransit
  | postEnd
  deriving DecidableEq, Repr

/-- The tuple `(lat, lon, hae_m, idx, next_idx)` returned by
`santa_pos_from_route`, tagged with the producing branch. -/
structure Pos where
  lat : ℚ
  lon : ℚ
  hae : ℝ
  idx : ℕ
  nextIdx : ℕ
  phase : Phase

/-- Python `MAX_ALT_FT = 30000.0`. -/
def MAX_ALT_FT : ℝ := 30000.0

/-- Python `FT_TO_M = 0.3048`. -/
def FT_TO_M : ℝ := 0.3048

/-- Python `MAX_ALT_M = MAX_ALT_FT * FT_TO_M` (9144 m). -/
noncomputable def MAX_ALT_M : ℝ := MAX_ALT_FT * FT_TO_M

/-- Python `altitude_bump_m(t, max_alt_m)`: clamp `t` to `[0,1]`, then
`max_alt_m * sin(pi * t)`. -/
noncomputable def altitude_bump_m (t : ℚ) : ℝ :=
  MAX_ALT_M * Real.sin (Real.pi * max 0 (min 1 (t : ℝ)))

/-- The `for i in range(len(dests))` scan of `santa_pos_from_route`:
on-ground window first, then the travelling window against the following
destination (only when one exists), else continue. -/
noncomputable def scanLoop (shift nowMs : ℤ) (total : ℕ) : List Dest → ℕ → Option Pos
  | [], _ => none
  | d :: rest, i =>
    let arr := destArr d + shift
    let dep := destDep d + shift
    if arr ≤ nowMs ∧ nowMs ≤ dep then
      some ⟨d.lat, d.lon, 0, i, min (i + 1) (total - 1), Phase.onGround⟩
    else
      match rest with
      | [] => none
      | nxt :: _ =>
        let nxtArr := destArr nxt + shift
        if dep < nowMs ∧ nowMs < nxtArr then
          let span : ℤ := max 1 (nxtArr - dep)
          let t : ℚ := ((nowMs - dep : ℤ) : ℚ) / ((span : ℤ) : ℚ)
          some ⟨d.lat + (nxt.lat - d.lat) * t, d.lon + (nxt.lon - d.lon) * t,
                altitude_bump_m t, i, i + 1, Phase.inTransit⟩
        else scanLoop shift nowMs total rest (i + 1)

/-- The body of `santa_pos_from_route` on a sorted, non-empty destination
list `d0 :: rest`: pre-start check, then the scan, then the after-last
fallback. -/
noncomputable def santaPosCore (d0 : Dest) (rest : List Dest) (nowMs : ℤ)
    (takeoffMs : Option ℤ) : Pos :=
  let dests := d0 :: rest
  let shift := computeShiftPos dests takeoffMs
  if nowMs < destArr d0 + shift then
    ⟨d0.lat, d0.lon, 0, 0, if 1 < dests.length then 1 else 0, Phase.preStart⟩
  else
    match scanLoop shift nowMs dests.length dests 0 with
    | some p => p
    | none =>
      let dl := dests.getLast (List.cons_ne_nil _ _)
      ⟨dl.lat, dl.lon, 0, dests.length - 1, dests.length - 1, Phase.postEnd⟩

/-- Python `santa_pos_from_route(route_data, now_ms, takeoff_ms)`; `none` models the
`RuntimeError` raised on an empty destination list. -/
noncomputable def santa_pos_from_route (dests0 : List Dest) (nowMs : ℤ)
    (takeoffMs : Option ℤ) : Option Pos :=
  match sortDests dests0 with
  | [] => none
  | d0 :: rest => some (santaPosCore d0 rest nowMs takeoffMs)

/-- Python `lerp(a, b, t) = a + (b - a) * t`. -/
def lerp (a b t : ℚ) : ℚ := a + (b - a) * t

/-- Python 3 builtin `round` on an exact value: round half to even. -/
def pyRound (x : ℚ) : ℤ :=
  if Int.fract x = 1 / 2 then (if ⌊x⌋ % 2 = 0 then ⌊x⌋ else ⌊x⌋ + 1) else round x

/-- The `x = int(cur.get("presentsDelivered", 0) or 0)` extracted by
`presents_dynamic_live` at the clamped current index of the sorted list. -/
def pdlX (destinations : List Dest) (idx : ℕ) : ℤ :=
  let dests := sortDests destinations
  if dests.isEmpty then 0
  else
    let i := min idx (dests.length - 1)
    (dests.getD i default).presentsDelivered.getD 0

/-- The `y = int(nxt.get("presentsDelivered", x) or x)` extracted by
`presents_dynamic_live` (missing or falsy next-progress falls back to `x`);
equals `pdlX` when the clamped indices coincide, matching the early-return
branch. -/
def pdlY (destinations : List Dest) (idx next_idx : ℕ) : ℤ :=
  let dests := sortDests destinations
  if dests.isEmpty then 0
  else
    let i := min idx (dests.length - 1)
    let j := min next_idx (dests.length - 1)
    let x := (dests.getD i default).presentsDelivered.getD 0
    if j = i then x
    else
      match (dests.getD j default).presentsDelivered with
      | none => x
      | some v => if v = 0 then x else v

/-- The ramp start `t0 = departure(current)` of `presents_dynamic_live`
(in shifted milliseconds). -/
def pdlT0 (destinations : List Dest) (idx : ℕ) (takeoffMs : Option ℤ) : ℤ :=
  let dests := sortDests destinations
  let i := min idx (dests.length - 1)
  let shift := computeShiftPdl dests takeoffMs
  (shiftedArrDepPdl (dests.getD i default) shift).2

/-- The ramp end `t1 = arrival(next) + 60s` of `presents_dynamic_live`
(in shifted milliseconds). -/
def pdlT1 (destinations : List Dest) (next_idx : ℕ) (takeoffMs : Option ℤ) : ℤ :=
  let dests := sortDests destinations
  let j := min next_idx (dests.length - 1)
  let shift := computeShiftPdl dests takeoffMs
  (shiftedArrDepPdl (dests.getD j default) shift).1 + 60000

/-- Python `presents_dynamic_live(destinations, idx, next_idx, now_ms, takeoff_ms)`,
assembled from the observations above (each of which carries the exact
extraction formula of the corresponding source line). -/
def presents_dynamic_live (destinations : List Dest) (idx next_idx : ℕ)
    (nowMs : ℤ) (takeoffMs : Option ℤ) : ℤ :=
  let dests := sortDests destinations
  if dests.isEmpty then 0
  else
    let i := min idx (dests.length - 1)
    let j := min next_idx (dests.length - 1)
    let x := pdlX destinations idx
    if j = i then x
    else
      let y := pdlY destinations idx next_idx
      let t0 := pdlT0 destinations idx takeoffMs
      let t1 := pdlT1 destinations next_idx takeoffMs
      if t1 ≤ t0 then y
      else
        let t : ℚ := max 0 (min 1 (((nowMs - t0 : ℤ) : ℚ) / ((t1 - t0 : ℤ) : ℚ)))
        pyRound (lerp (x : ℚ) (y : ℚ) t)

section Geodesy

open scoped Classical

/-- Python `deg2rad(deg) = deg * pi / 180`. -/
noncomputable def deg2rad (deg : ℝ) : ℝ := deg * Real.pi / 180

/-- Python `rad2deg(rad) = rad * 180 / pi`. -/
noncomputable def rad2deg (rad : ℝ) : ℝ := rad * 180 / Real.pi

/-- Python `math.atan2(y, x)` on exact reals (the `x = 0, y = 0` corner follows
CPython on positive zeros: `atan2(0.0, 0.0) = 0.0`). -/
noncomputable def atan2 (y x : ℝ) : ℝ :=
  if 0 < x then Real.arctan (y / x)
  else if x < 0 then
    (if 0 ≤ y then Real.arctan (y / x) + Real.pi else Real.arctan (y / x) - Real.pi)
  else if 0 < y then Real.pi / 2
  else if y < 0 then -(Real.pi / 2)
  else 0

/-- The Python float `%` for a positive modulus: `a - n * floor(a / n)`,
whose result lies in `[0, n)`. -/
noncomputable def pymod (a n : ℝ) : ℝ := a - n * ⌊a / n⌋

/-- Python `compute_range_bearing_inclination(lat1, lon1, hae1, lat2, lon2, hae2)`,
returning `(slant_range, bearing_deg, inclination_rad)`. -/
noncomputable def compute_range_bearing_inclination
    (lat1 lon1 hae1 lat2 lon2 hae2 : ℝ) : ℝ × ℝ × ℝ :=
  let R : ℝ := 6371000
  let phi1 := deg2rad lat1
  let phi2 := deg2rad lat2
  let dphi := deg2rad (lat2 - lat1)
  let dlambda := deg2rad (lon2 - lon1)
  let a := Real.sin (dphi / 2) ^ 2 +
    Real.cos phi1 * Real.cos phi2 * Real.sin (dlambda / 2) ^ 2
  let c := 2 * atan2 (Real.sqrt a) (Real.sqrt (1 - a))
  let groundRange := R * c
  let y := Real.sin dlambda * Real.cos phi2
  let x := Real.cos phi1 * Real.sin phi2 -
    Real.sin phi1 * Real.cos phi2 * Real.cos dlambda
  let bearingDeg := pymod (rad2deg (atan2 y x) + 360) 360
  let dz := hae2 - hae1
  let slantRange := Real.sqrt (groundRange ^ 2 + dz ^ 2)
  let inclinationRad := if groundRange = 0 then 0 else atan2 dz groundRange
  (slantRange, bearingDeg, inclinationRad)

/-- The angular distance `δ` computed at the top of `gc_step`. -/
noncomputable def gcDelta (lat1 lon1 lat2 lon2 : ℝ) : ℝ :=
  let φ1 := deg2rad lat1
  let lam1 := deg2rad lon1
  let φ2 := deg2rad lat2
  let lam2 := deg2rad lon2
  let a := Real.sin ((φ2 - φ1) / 2) ^ 2 +
    Real.cos φ1 * Real.cos φ2 * Real.sin ((lam2 - lam1) / 2) ^ 2
  2 * atan2 (Real.sqrt a) (Real.sqrt (1 - a))

/-- The clamped step angle `δ_step = min(step_m / R, δ)` of `gc_step`. -/
noncomputable def gcStepAngle (lat1 lon1 lat2 lon2 stepM : ℝ) : ℝ :=
  min (stepM / 6371000) (gcDelta lat1 lon1 lat2 lon2)

/-- Python `gc_step(lat1, lon1, lat2, lon2, step_m)`: spherical slerp by the
clamped step angle, with the longitude sent through
`(rad2deg(lam3) + 540.0) % 360.0 - 180.0`. -/
noncomputable def gc_step (lat1 lon1 lat2 lon2 stepM : ℝ) : ℝ × ℝ :=
  let δ := gcDelta lat1 lon1 lat2 lon2
  if δ = 0 then (lat1, lon1)
  else
    let δs := gcStepAngle lat1 lon1 lat2 lon2 stepM
    let A := Real.sin (δ - δs) / Real.sin δ
    let B := Real.sin δs / Real.sin δ
    let φ1 := deg2rad lat1
    let lam1 := deg2rad lon1
    let φ2 := deg2rad lat2
    let lam2 := deg2rad lon2
    let x := A * Real.cos φ1 * Real.cos lam1 + B * Real.cos φ2 * Real.cos lam2
    let y := A * Real.cos φ1 * Real.sin lam1 + B * Real.cos φ2 * Real.sin lam2
    let z := A * Real.sin φ1 + B * Real.sin φ2
    let φ3 := atan2 z (Real.sqrt (x * x + y * y))
    let lam3 := atan2 y x
    (rad2deg φ3, pymod (rad2deg lam3 + 540) 360 - 180)

end Geodesy

/-! ### CoT event model

`xml.etree.ElementTree` documents built by this program are two levels deep
(`event` → `point`/`detail` → leaf sub-elements), so they are embedded as a
fixed two-level tree.  Attribute values keep their exact payloads
(`AVal.q`/`AVal.r` for numbers whose Python float formatting is abstracted,
`AVal.s` for literal strings). -/

/-- An XML attribute value. -/
inductive AVal
  | s (v : String)
  | q (v : ℚ)
  | i (v : ℤ)
  | r (v : ℝ)

/-- A childless XML element. -/
structure XLeaf where
  tag : String
  attrs : List (String × AVal)
  text : Option String

/-- A depth-one XML element (`point`, `detail`). -/
structure XChild where
  tag : String
  attrs : List (String × AVal)
  text : Option String
  sub : List XLeaf

/-- A whole CoT `event` document. -/
structure XEvent where
  attrs : List (String × AVal)
  children : List XChild

/-- Renders an attribute value.  Python formats floats with `f"..."` specs;
that textual detail is abstracted (`AVal.r` renders as a fixed marker), the
claims never depend on it. -/
def renderVal : AVal → String
  | .s v => v
  | .q v => toString v
  | .i v => toString v
  | .r _ => "float"

def renderAttrs : List (String × AVal) → String
  | [] => ""
  | (k, v) :: rest => " " ++ k ++ "=\"" ++ renderVal v ++ "\"" ++ renderAttrs rest

def renderLeaf (l : XLeaf) : String :=
  "<" ++ l.tag ++ renderAttrs l.attrs ++ ">" ++ l.text.getD ("") ++ "</" ++ l.tag ++ ">"

def renderChild (c : XChild) : String :=
  "<" ++ c.tag ++ renderAttrs c.attrs ++ ">" ++ c.text.getD ("") ++
    String.join (c.sub.map renderLeaf) ++ "</" ++ c.tag ++ ">"

/-- Python `ET.tostring(event, encoding="utf-8", xml_declaration=True)`. -/
def serialize (e : XEvent) : String :=
  "<?xml version=\"1.0\" encoding=\"utf-8\"?>" ++
    "<event" ++ renderAttrs e.attrs ++ ">" ++
    String.join (e.children.map renderChild) ++ "</event>"

/-- Ambient effects read inside the builders and the tick: the wall clock
`datetime.now(timezone.utc)` (epoch ms) and the next `uuid.uuid4()` value. -/
structure Env where
  now : ℤ
  freshUuid : String
  deriving DecidableEq, Repr

/-- Python `iso_z(dt)`: the millisecond-precision UTC rendering of an instant,
abstracted to an injective textual form. -/
def iso_z (t : ℤ) : String := toString t ++ "Z"

/-- Python `SANTA_UUID = "SANTA"`. -/
def SANTA_UUID : String := "SANTA"

/-- Python `RB_UUID = str(uuid.uuid4())`: one random UID drawn at import time and
fixed for the process lifetime; modelled as a fixed token. -/
def RB_UUID : String := "RB-LINE-UUID"

/-- Python `NORTH_POLE_LAT = 84.6`. -/
def NORTH_POLE_LAT : ℚ := 84.6

/-- Python `NORTH_POLE_LON = 168`. -/
def NORTH_POLE_LON : ℚ := 168

/-- Python `build_santa_cot(lat, lon, hae_m, presents_delivered, next_display, uid,
stale_minutes=5, now_dt_utc=None)`.  The remarks text drops the Python
thousands separators (`f"..:,"`), which the claims never inspect. -/
def build_santa_cot (lat lon : ℚ) (haeM : ℝ) (presentsDelivered : ℤ)
    (nextDisplay uid : String) (staleMinutes : ℤ) (nowOpt : Option ℤ)
    (env : Env) : XEvent :=
  let now := nowOpt.getD env.now
  let timeStr := iso_z now
  let stale := iso_z (now + staleMinutes * 60000)
  { attrs := [("version", .s ("2.0")), ("uid", .s uid), ("type", .s ("a-n-A-C")),
              ("time", .s timeStr), ("start", .s timeStr), ("stale", .s stale),
              ("how", .s ("m-g"))],
    children := [
      { tag := "point",
        attrs := [("lat", .q lat), ("lon", .q lon), ("hae", .r haeM),
                  ("ce", .s ("9999999.0")), ("le", .s ("9999999.0"))],
        text := none, sub := [] },
      { tag := "detail", attrs := [], text := none,
        sub := [
          { tag := "__group",
            attrs := [("role", .s ("Santa Claus")), ("name", .s ("Red")),
                      ("abbr", .s ("S"))], text := none },
          { tag := "contact", attrs := [("callsign", .s ("SANTA"))], text := none },
          { tag := "remarks", attrs := [],
            text := some ("Presents Delivered: " ++ toString presentsDelivered ++
              "\nNext: " ++ nextDisplay) } ] } ] }

/-- A resolved destination (the result dict of `resolve_destination`). -/
structure DestInfo where
  name : String
  lat : ℚ
  lon : ℚ
  admin1 : String
  country_code : String
  deriving DecidableEq, Repr

/-- Python `str.capitalize()`: first character upper, rest lower. -/
def capWord (w : String) : String :=
  match w.data with
  | [] => w
  | c :: rest => String.mk (c.toUpper :: rest.map Char.toLower)

/-- Python `format_destination_name(raw)`. -/
def format_destination_name (raw : String) : String :=
  if raw = "" then ("Unknown")
  else String.intercalate (" ") ((raw.splitOn ("_")).map capWord)

/-- Python `STATE_PROVINCE_CODES`. -/
def STATE_PROVINCE_CODES : List (String × String) :=
  [("alabama", "AL"), ("alaska", "AK"), ("arizona", "AZ"), ("arkansas", "AR"),
   ("california", "CA"), ("colorado", "CO"), ("connecticut", "CT"), ("delaware", "DE"),
   ("district of columbia", "DC"), ("florida", "FL"), ("georgia", "GA"),
   ("hawaii", "HI"), ("idaho", "ID"), ("illinois", "IL"), ("indiana", "IN"),
   ("iowa", "IA"), ("kansas", "KS"), ("kentucky", "KY"), ("louisiana", "LA"),
   ("maine", "ME"), ("maryland", "MD"), ("massachusetts", "MA"), ("michigan", "MI"),
   ("minnesota", "MN"), ("mississippi", "MS"), ("missouri", "MO"), ("montana", "MT"),
   ("nebraska", "NE"), ("nevada", "NV"), ("new hampshire", "NH"), ("new jersey", "NJ"),
   ("new mexico", "NM"), ("new york", "NY"), ("north carolina", "NC"),
   ("north dakota", "ND"), ("ohio", "OH"), ("oklahoma", "OK"), ("oregon", "OR"),
   ("pennsylvania", "PA"), ("rhode island", "RI"), ("south carolina", "SC"),
   ("south dakota", "SD"), ("tennessee", "TN"), ("texas", "TX"), ("utah", "UT"),
   ("vermont", "VT"), ("virginia", "VA"), ("washington", "WA"),
   ("west virginia", "WV"), ("wisconsin", "WI"), ("wyoming", "WY"),
   ("puerto rico", "PR"), ("guam", "GU"), ("american samoa", "AS"),
   ("u.s. virgin islands", "VI"), ("northern mariana islands", "MP"),
   ("alberta", "AB"), ("british columbia", "BC"), ("manitoba", "MB"),
   ("new brunswick", "NB"), ("newfoundland and labrador", "NL"),
   ("nova scotia", "NS"), ("ontario", "ON"), ("prince edward island", "PE"),
   ("quebec", "QC"), ("saskatchewan", "SK"),
   ("northwest territories", "NT"), ("nunavut", "NU"), ("yukon", "YT")]

/-- Python `abbrev_state_or_province(admin1, country_code)`. -/
def abbrev_state_or_province (admin1 countryCode : String) : String :=
  if admin1 = "" then ("")
  else
    let key := admin1.trim.toLower
    if countryCode = "US" ∨ countryCode = "CA" then
      match STATE_PROVINCE_CODES.lookup key with
      | some code => code
      | none => admin1
    else admin1

/-- The `[name] + [admin1_abr]? + [country_code]?` join with `", "`, as
written both inside `build_goto_cot` and in the live display of `run_once`. -/
def display_label (di : DestInfo) : String :=
  let ab := abbrev_state_or_province di.admin1 di.country_code
  let p1 := if ab = "" then [di.name] else [di.name, ab]
  let p2 := if di.country_code = "" then p1 else p1 ++ [di.country_code]
  String.intercalate (", ") p2

/-- Python `dest.get("id") or "landing"` (`resolve_destination`). -/
def rawDestId (d : Dest) : String :=
  match d.id with
  | none => "landing"
  | some s => if s = "" then ("landing") else s

/-- Python `resolve_destination(dest)`: with the route `location` object present
(as it is in this embedding of route records), coordinates always resolve
and the API-provided labels are preferred. -/
def resolve_destination (d : Dest) : Option DestInfo :=
  some { name := (match d.city with
                  | none => format_destination_name (rawDestId d)
                  | some c => if c = "" then format_destination_name (rawDestId d) else c),
         lat := d.lat, lon := d.lon,
         admin1 := d.region.getD (""),
         country_code := "" }

/-- Python `build_goto_cot(dest_info, uid, stale_hours=24, now_dt_utc=None)`. -/
def build_goto_cot (destInfo : DestInfo) (uid : String) (staleHours : ℤ)
    (nowOpt : Option ℤ) (env : Env) : XEvent :=
  let now := nowOpt.getD env.now
  let timeStr := iso_z now
  let stale := iso_z (now + staleHours * 3600000)
  let label := display_label destInfo
  { attrs := [("version", .s ("2.0")), ("uid", .s uid), ("type", .s ("a-u-G")),
              ("time", .s timeStr), ("start", .s timeStr), ("stale", .s stale),
              ("how", .s ("m-g"))],
    children := [
      { tag := "point",
        attrs := [("lat", .q destInfo.lat), ("lon", .q destInfo.lon),
                  ("hae", .s ("0")), ("ce", .s ("9999999.0")), ("le", .s ("9999999.0"))],
        text := none, sub := [] },
      { tag := "detail", attrs := [], text := none,
        sub := [
          { tag := "contact", attrs := [("callsign", .s label)], text := none },
          { tag := "color", attrs := [("argb", .s ("-65536"))], text := none },
          { tag := "remarks", attrs := [],
            text := some ("Santa\x27s next destination: " ++ label) },
          { tag := "usericon",
            attrs := [("iconsetpath",
              .s ("ad78aafb-83a6-4c07-b2b9-a897a8b6a38f/Markers/wht-circle.png"))],
            text := none } ] } ] }

/-- Python `build_rb_cot(origin_lat, origin_lon, origin_hae, dest_info, parent_uid,
range_uid, uid, stale_minutes=1, now_dt_utc=None)`. -/
noncomputable def build_rb_cot (originLat originLon : ℚ) (originHae : ℝ)
    (destInfo : DestInfo) (parentUid rangeUid uid : String) (staleMinutes : ℤ)
    (nowOpt : Option ℤ) (env : Env) : XEvent :=
  let rbi := compute_range_bearing_inclination
    (originLat : ℝ) (originLon : ℝ) originHae
    (destInfo.lat : ℝ) (destInfo.lon : ℝ) 0
  let now := nowOpt.getD env.now
  let timeStr := iso_z now
  let stale := iso_z (now + staleMinutes * 60000)
  { attrs := [("version", .s ("2.0")), ("uid", .s uid), ("type", .s ("u-rb-a")),
              ("time", .s timeStr), ("start", .s timeStr), ("stale", .s stale),
              ("how", .s ("m-g")), ("access", .s ("Undefined"))],
    children := [
      { tag := "point",
        attrs := [("lat", .q originLat), ("lon", .q originLon), ("hae", .r originHae),
                  ("ce", .s ("9999999.0")), ("le", .s ("9999999.0"))],
        text := none, sub := [] },
      { tag := "detail", attrs := [], text := none,
        sub := [
          { tag := "range", attrs := [("value", .r rbi.1)], text := none },
          { tag := "bearing", attrs := [("value", .r rbi.2.1)], text := none },
          { tag := "inclination", attrs := [("value", .r rbi.2.2)], text := none },
          { tag := "rangeUID", attrs := [("value", .s rangeUid)], text := none },
          { tag := "rangeUnits", attrs := [("value", .s ("1"))], text := none },
          { tag := "bearingUnits", attrs := [("value", .s ("0"))], text := none },
          { tag := "northRef", attrs := [("value", .s ("1"))], text := none },
          { tag := "color", attrs := [("value", .s ("-65536"))], text := none },
          { tag := "strokeColor", attrs := [("value", .s ("-65536"))], text := none },
          { tag := "strokeWeight", attrs := [("value", .s ("3.0"))], text := none },
          { tag := "strokeStyle", attrs := [("value", .s ("solid"))], text := none },
          { tag := "link",
            attrs := [("uid", .s parentUid), ("type", .s ("a-n-A-C")),
                      ("relation", .s ("p-p"))], text := none },
          { tag := "contact",
            attrs := [("callsign", .s ("R&B to " ++ destInfo.name))], text := none },
          { tag := "remarks", attrs := [], text := none } ] } ] }

/-- Python `build_delete_cot(tgt_uid, stale_seconds=5)`.  There is no injectable
instant: the builder reads the ambient wall clock and mints a fresh
`uuid.uuid4()` as the event uid of the delete message. -/
def build_delete_cot (tgtUid : String) (staleSeconds : ℤ) (env : Env) : XEvent :=
  let start := iso_z env.now
  let stale := iso_z (env.now + staleSeconds * 1000)
  { attrs := [("version", .s ("2.0")), ("uid", .s env.freshUuid),
              ("type", .s ("t-x-d-d")), ("time", .s start), ("start", .s start),
              ("stale", .s stale), ("how", .s ("m-g"))],
    children := [
      { tag := "detail", attrs := [], text := none,
        sub := [
          { tag := "link",
            attrs := [("uid", .s tgtUid), ("type", .s ("none")),
                      ("relation", .s ("none"))], text := none },
          { tag := "__forcedelete", attrs := [], text := none } ] },
      { tag := "point",
        attrs := [("lat", .s ("0.0")), ("lon", .s ("0.0")), ("hae", .s ("0.0")),
                  ("ce", .s ("9999999.0")), ("le", .s ("9999999.0"))],
        text := none, sub := [] } ] }

/-! ### Tick controller -/

/-- The top-level fields of the feed info JSON that the tick reads
(each may be absent), all epoch milliseconds. -/
structure Info where
  now : Option ℤ
  takeoff : Option ℤ
  duration : Option ℤ
  deriving DecidableEq, Repr

/-- Python `api_is_live(info_json)`. -/
def api_is_live (info : Info) : Bool :=
  match info.now, info.takeoff, info.duration with
  | some n, some t, some d => if d ≤ 0 then false else decide (t ≤ n)
  | _, _, _ => false

/-- Python `format_countdown(info_json)` (zero padding of the digits abstracted). -/
def format_countdown (info : Info) : String :=
  match info.now, info.takeoff with
  | some n, some t =>
    let deltaS := max 0 ((t - n) / 1000)
    let h := deltaS / 3600
    let m := deltaS % 3600 / 60
    let s := deltaS % 60
    "Takeoff in " ++ toString h ++ ":" ++ toString m ++ ":" ++ toString s
  | _, _ => "Waiting for takeoff…"

/-- Python `int(info.get("takeoff", 0)) if info.get("takeoff") else None` — the
takeoff passed to the interpolators (falsy zero becomes `None`). -/
def takeoffOptOf (info : Info) : Option ℤ :=
  match info.takeoff with
  | some t => if t = 0 then none else some t
  | none => none

/-- The `RuntimeError` raised by the fetch when the route has no
destinations. -/
inductive RunErr
  | noDestinations
  deriving DecidableEq, Repr

/-- What one tick produced: the CoT messages passed to `sender.send`, in
order, how many times `santa_pos_from_route` was invoked during the tick,
and the `VISITED_PUSH_DONE` flag after the tick. -/
structure RunResult where
  messages : List XEvent
  interpCalls : ℕ
  visitedDone : Bool

section Tick

open scoped Classical

/-- Python `run_once(sender, args)` on the happy transport path, as a function of
the already-fetched feed documents (`info`, the destination list of the route),
the ambient effects, and the `VISITED_PUSH_DONE` flag.  The fetch
(`get_santa_location_and_route`) runs first and unconditionally calls
`santa_pos_from_route`; only then is liveness checked. -/
noncomputable def run_once (info : Info) (routeDests : List Dest) (env : Env)
    (visitedDone : Bool) : Except RunErr RunResult :=
  match routeDests with
  | [] => .error .noDestinations
  | _ :: _ =>
    let apiNowMs := info.now.getD 0
    let takeoffMs := takeoffOptOf info
    match santa_pos_from_route routeDests apiNowMs takeoffMs with
    | none => .error .noDestinations
    | some pos =>
      if api_is_live info then
        let presentsNow :=
          presents_dynamic_live routeDests pos.idx pos.nextIdx apiNowMs takeoffMs
        let destsSorted := sortDests routeDests
        let visitedUpto := if pos.hae ≤ (1 : ℝ) then pos.idx + 1 else pos.idx
        let backfill := if visitedDone then [] else
          (List.range visitedUpto).filterMap (fun i =>
            let d := destsSorted.getD i default
            let rawId := match d.id with
              | none => "visited_" ++ toString i
              | some s => if s = "" then ("visited_" ++ toString i) else s
            match resolve_destination d with
            | none => none
            | some di => some (build_goto_cot di rawId 24 (some apiNowMs) env))
        let nextDest : Option Dest :=
          if pos.idx < routeDests.length - 1
          then some (routeDests.getD pos.nextIdx default) else none
        let rawNextId := match nextDest with
          | some d => rawDestId d
          | none => "landing"
        let destInfo := nextDest.bind resolve_destination
        let nextDisplay := match destInfo with
          | some di => display_label di
          | none => format_destination_name rawNextId
        let santaCot := build_santa_cot pos.lat pos.lon pos.hae presentsNow
          nextDisplay SANTA_UUID 5 (some apiNowMs) env
        let tailMsgs := match destInfo with
          | some di =>
            [build_goto_cot di rawNextId 24 (some apiNowMs) env,
             build_rb_cot pos.lat pos.lon pos.hae di SANTA_UUID rawNextId
               RB_UUID 1 (some apiNowMs) env]
          | none => []
        .ok ⟨backfill ++ santaCot :: tailMsgs, 1, true⟩
      else
        let nextDisplay := format_countdown info
        let santaCot := build_santa_cot NORTH_POLE_LAT NORTH_POLE_LON 0 0
          nextDisplay SANTA_UUID 5 (some apiNowMs) env
        .ok ⟨[santaCot, build_delete_cot RB_UUID 5 env], 1, visitedDone⟩

end Tick

/-! ### Transport sinks

Each sink is a state machine; the network is an oracle: `outcomes` lists
the success of each successive `sendall` during one `send` call (missing
entries mean success), and connection establishment succeeds in the model
(the claims under test concern write-failure handling). -/

/-- Transport-level failures. -/
inductive TransErr
  | notOpened
  | assertFailed
  | writeFailed
  deriving DecidableEq, Repr

/-- Python `UdpMulticastSender`: `sock` is either set or `None`. -/
structure UdpState where
  sockOpen : Bool
  deriving DecidableEq, Repr

/-- Python `UdpMulticastSender.open`. -/
def udpOpen (_s : UdpState) : UdpState := ⟨true⟩

/-- Python `UdpMulticastSender.close`: only acts when a socket exists. -/
def udpClose (s : UdpState) : UdpState := if s.sockOpen then ⟨false⟩ else s

/-- Python `UdpMulticastSender.send`: raises `RuntimeError` when not opened,
otherwise emits one datagram (the unframed payload). -/
def udpSend (s : UdpState) (msg : String) : Except TransErr (UdpState × String) :=
  if s.sockOpen then .ok (s, msg) else .error .notOpened

/-- Python `TcpSender`: `sock` set or `None`. -/
structure TcpState where
  connected : Bool
  deriving DecidableEq, Repr

/-- Python `TcpSender._connect` (close, fresh socket, connect). -/
def tcpConnect (_s : TcpState) : TcpState := ⟨true⟩

/-- Python `TcpSender.open`. -/
def tcpOpen (s : TcpState) : TcpState := tcpConnect s

/-- Python `TcpSender.close`. -/
def tcpClose (s : TcpState) : TcpState := if s.connected then ⟨false⟩ else s

/-- Observable trace of one `send` call. -/
structure SendTrace where
  result : Except TransErr Unit
  finalConnected : Bool
  connects : ℕ
  writes : List String

/-- Python `TcpSender.send`: auto-connect when `sock` is `None`; on a failed
`sendall`, `_connect` once and retry the same framed payload once; a second
failure propagates. -/
def tcpSend (s : TcpState) (msg : String) (newline : Bool)
    (outcomes : List Bool) : SendTrace :=
  let payload := if newline then msg ++ "\n" else msg
  let c0 : ℕ := if s.connected then 0 else 1
  if outcomes.getD 0 true then
    ⟨.ok (), true, c0, [payload]⟩
  else if outcomes.getD 1 true then
    ⟨.ok (), true, c0 + 1, [payload, payload]⟩
  else
    ⟨.error .writeFailed, true, c0 + 1, [payload, payload]⟩

/-- Python `TlsSender`: socket, security context, and the temporary PEM files
materialized from a PKCS#12 bundle. -/
structure TlsState where
  connected : Bool
  ctxBuilt : Bool
  tempFiles : List String
  deriving DecidableEq, Repr

/-- Python `TlsSender.close`: closes the socket if any, then unlinks and clears
any temporary credential files. -/
def tlsClose (s : TlsState) : TlsState :=
  let s1 := if s.connected then { s with connected := false } else s
  if s1.tempFiles.isEmpty then s1 else { s1 with tempFiles := [] }

/-- Python `TlsSender._connect`: `close()`, raw connect (succeeds in the model),
then `assert self.ctx is not None`. -/
def tlsConnect (s : TlsState) : Except TransErr TlsState :=
  let s1 := tlsClose s
  if s1.ctxBuilt then .ok { s1 with connected := true } else .error .assertFailed

/-- Python `TlsSender.open`: `_build_context()` (possibly materializing PKCS#12
temp files) then `_connect()`. -/
def tlsOpen (s : TlsState) (p12Temp : List String) : Except TransErr TlsState :=
  tlsConnect { s with ctxBuilt := true, tempFiles := s.tempFiles ++ p12Temp }

/-- Observable trace of one `TlsSender.send`. -/
structure TlsTrace where
  result : Except TransErr Unit
  final : TlsState
  connects : ℕ
  writes : List String

/-- The body of `TlsSender.send` after the socket exists. -/
def tlsWritePhase (s : TlsState) (c0 : ℕ) (payload : String)
    (outcomes : List Bool) : TlsTrace :=
  if outcomes.getD 0 true then ⟨.ok (), s, c0, [payload]⟩
  else
    match tlsConnect s with
    | .error e => ⟨.error e, tlsClose s, c0 + 1, [payload]⟩
    | .ok s2 =>
      if outcomes.getD 1 true then ⟨.ok (), s2, c0 + 1, [payload, payload]⟩
      else ⟨.error .writeFailed, s2, c0 + 1, [payload, payload]⟩

/-- Python `TlsSender.send`: auto-`_connect` when `sock` is `None` (which asserts
on the missing context when `open` was never called), then one write with a
single reconnect-and-retry on failure. -/
def tlsSend (s : TlsState) (msg : String) (newline : Bool)
    (outcomes : List Bool) : TlsTrace :=
  let payload := if newline then msg ++ "\n" else msg
  if s.connected then tlsWritePhase s 0 payload outcomes
  else
    match tlsConnect s with
    | .error e => ⟨.error e, tlsClose s, 1, []⟩
    | .ok s1 => tlsWritePhase s1 1 payload outcomes

/-! ### Concrete fixtures -/

/-- Waypoint A of the interpolation scenario of the spec: `(40, -70)`,
`arrival = departure = 1000`, progress `10`. -/
def destA : Dest := ⟨some ("A"), some 1000, some 1000, 40, -70, some 10, none, none⟩

/-- Waypoint B of the interpolation scenario of the spec: `(41, -70)`,
`arrival = departure = 2000`, progress `20`. -/
def destB : Dest := ⟨some ("B"), some 2000, some 2000, 41, -70, some 20, none, none⟩

/-- A feed info document whose reported time is before takeoff
(`now = 100 < takeoff = 200`, positive duration): the pre-live regime. -/
def info0 : Info := ⟨some 100, some 200, some 1000⟩

/-- A single route destination used with `info0`. -/
def dest0 : Dest := ⟨some ("X"), some 500, some 600, 10, 20, some 1, none, none⟩

/-- A concrete ambient environment. -/
def env0 : Env := ⟨7, "uuid-witness"⟩

/-! ## Theorems -/

/-- Applying `pyRound` to an integer returns that integer. -/
theorem pyRound_intCast (n : ℤ) : pyRound (n : ℚ) = n := by
  have h : Int.fract (n : ℚ) = 0 := Int.fract_intCast n
  rw [pyRound, h, if_neg (by norm_num), round_intCast]

/-- Round-half-to-even is monotone. -/
theorem pyRound_mono {x y : ℚ} (h : x ≤ y) : pyRound x ≤ pyRound y := by
  have hf := Int.floor_mono h
  unfold pyRound
  by_cases hx : Int.fract x = 1 / 2 <;> by_cases hy : Int.fract y = 1 / 2
  · rw [if_pos hx, if_pos hy]
    split_ifs <;> omega
  · rw [if_pos hx, if_neg hy, round_eq]
    have hx' : x = (⌊x⌋ : ℚ) + 1 / 2 := by
      have := Int.floor_add_fract x
      rw [hx] at this
      linarith
    have hb : ⌊x⌋ + 1 ≤ ⌊y + 1 / 2⌋ := by
      apply Int.le_floor.mpr
      push_cast
      linarith
    split_ifs <;> omega
  · rw [if_neg hx, if_pos hy, round_eq]
    have hy' : y = (⌊y⌋ : ℚ) + 1 / 2 := by
      have := Int.floor_add_fract y
      rw [hy] at this
      linarith
    have hxy : x < y := lt_of_le_of_ne h (by
      intro he
      exact hx (he ▸ hy))
    have hb : ⌊x + 1 / 2⌋ ≤ ⌊y⌋ := by
      have : ⌊x + 1 / 2⌋ < ⌊y⌋ + 1 := by
        apply Int.floor_lt.mpr
        push_cast
        linarith
      omega
    split_ifs <;> omega
  · rw [if_neg hx, if_neg hy, round_eq, round_eq]
    exact Int.floor_mono (by linarith)

/-- The Python float `%` with a positive modulus lands in `[0, n)`. -/
theorem pymod_mem {n : ℝ} (hn : 0 < n) (a : ℝ) : 0 ≤ pymod a n ∧ pymod a n < n := by
  unfold pymod
  have h1 : (⌊a / n⌋ : ℝ) ≤ a / n := Int.floor_le _
  have h2 : a / n < ⌊a / n⌋ + 1 := Int.lt_floor_add_one _
  have e : n * (a / n) = a := by field_simp
  have l1 : n * (⌊a / n⌋ : ℝ) ≤ a := by
    calc n * (⌊a / n⌋ : ℝ) ≤ n * (a / n) := by
          exact mul_le_mul_of_nonneg_left h1 hn.le
      _ = a := e
  have l2 : a < n * (⌊a / n⌋ : ℝ) + n := by
    have h3 := mul_lt_mul_of_pos_left h2 hn
    rw [mul_add, mul_one] at h3
    linarith [e ▸ h3]
  constructor <;> linarith

/-- The altitude bump stays within `[0, MAX_ALT_M]`. -/
theorem altitude_bump_m_mem (t : ℚ) :
    0 ≤ altitude_bump_m t ∧ altitude_bump_m t ≤ MAX_ALT_M := by
  unfold altitude_bump_m
  have hc0 : (0 : ℝ) ≤ max 0 (min 1 ((t : ℚ) : ℝ)) := le_max_left _ _
  have hc1 : max 0 (min 1 ((t : ℚ) : ℝ)) ≤ 1 :=
    max_le (by norm_num) (min_le_left _ _)
  have hs0 : 0 ≤ Real.sin (Real.pi * max 0 (min 1 ((t : ℚ) : ℝ))) := by
    apply Real.sin_nonneg_of_nonneg_of_le_pi
    · positivity
    · calc Real.pi * max 0 (min 1 ((t : ℚ) : ℝ)) ≤ Real.pi * 1 :=
            mul_le_mul_of_nonneg_left hc1 Real.pi_pos.le
        _ = Real.pi := mul_one _
  have hs1 : Real.sin (Real.pi * max 0 (min 1 ((t : ℚ) : ℝ))) ≤ 1 :=
    Real.sin_le_one _
  have hM : (0 : ℝ) ≤ MAX_ALT_M := by
    unfold MAX_ALT_M MAX_ALT_FT FT_TO_M
    norm_num
  refine ⟨mul_nonneg hM hs0, ?_⟩
  calc MAX_ALT_M * Real.sin (Real.pi * max 0 (min 1 ((t : ℚ) : ℝ)))
      ≤ MAX_ALT_M * 1 := mul_le_mul_of_nonneg_left hs1 hM
    _ = MAX_ALT_M := mul_one _

/-- C7: for both stream sinks, a failed write triggers exactly one
reconnect and one retry of the same framed payload; when the retry also
fails the transport error propagates with no further reconnect
(`connects` stays 1 within the send). -/
theorem c7_stream_sinks_reconnect_once_retry_once (p : String) (nl : Bool)
    (rest : List Bool) :
    tcpSend ⟨true⟩ p nl (false :: true :: rest) =
      ⟨.ok (), true, 1, [if nl then p ++ "\n" else p, if nl then p ++ "\n" else p]⟩ ∧
    tcpSend ⟨true⟩ p nl (false :: false :: rest) =
      ⟨.error .writeFailed, true, 1,
        [if nl then p ++ "\n" else p, if nl then p ++ "\n" else p]⟩ ∧
    tlsSend ⟨true, true, []⟩ p nl (false :: true :: rest) =
      ⟨.ok (), ⟨true, true, []⟩, 1,
        [if nl then p ++ "\n" else p, if nl then p ++ "\n" else p]⟩ ∧
    tlsSend ⟨true, true, []⟩ p nl (false :: false :: rest) =
      ⟨.error .writeFailed, ⟨true, true, []⟩, 1,
        [if nl then p ++ "\n" else p, if nl then p ++ "\n" else p]⟩ :=
  ⟨rfl, rfl, rfl, rfl⟩

/-- C2 counterexample: the datagram sink does not auto-open on `send`
before `open` — it raises `RuntimeError` — and the encrypted sink fails
its `assert self.ctx is not None` (the context is only built by `open`). -/
theorem c2_counterexample :
    udpSend ⟨false⟩ ("<x/>") = .error .notOpened ∧
    (tlsSend ⟨false, false, []⟩ ("<x/>") true []).result = .error .assertFailed :=
  ⟨rfl, rfl⟩

/-- C2 amended: `close` when not open is a no-op for all three sinks, and
`send` before `open` auto-opens only for the plain stream sink; the
datagram sink raises `RuntimeError` and the encrypted sink fails its
context assertion. -/
theorem c2_amended (p : String) (nl : Bool) (b : Bool) (outs : List Bool) :
    udpClose ⟨false⟩ = ⟨false⟩ ∧
    tcpClose ⟨false⟩ = ⟨false⟩ ∧
    tlsClose ⟨false, b, []⟩ = ⟨false, b, []⟩ ∧
    tcpSend ⟨false⟩ p nl [] = ⟨.ok (), true, 1, [if nl then p ++ "\n" else p]⟩ ∧
    udpSend ⟨false⟩ p = .error .notOpened ∧
    tlsSend ⟨false, false, []⟩ p nl outs =
      ⟨.error .assertFailed, ⟨false, false, []⟩, 1, []⟩ :=
  ⟨rfl, rfl, rfl, rfl, rfl, rfl⟩

/-- C5 counterexample: on the two-waypoint scenario at `now = 1500` the
progress interpolator returns `10` — the ramp runs to
`arrival(next) + 60000 ms`, not `+60` — so its value is not strictly
between 10 and 20. -/
theorem c5_counterexample :
    presents_dynamic_live [destA, destB] 0 1 1500 none = 10 ∧
    ¬ (10 < presents_dynamic_live [destA, destB] 0 1 1500 none ∧
       presents_dynamic_live [destA, destB] 0 1 1500 none < 20) := by
  have hsort : sortDests [destA, destB] = [destA, destB] := by decide
  have hx : pdlX [destA, destB] 0 = 10 := by decide
  have hy : pdlY [destA, destB] 0 1 = 20 := by decide
  have ht0 : pdlT0 [destA, destB] 0 none = 1000 := by decide
  have ht1 : pdlT1 [destA, destB] 1 none = 62000 := by decide
  have h : presents_dynamic_live [destA, destB] 0 1 1500 none = 10 := by
    rw [presents_dynamic_live]
    simp only [hsort, hx, hy, ht0, ht1]
    norm_num [pyRound, lerp, Int.fract, round_eq]
  rw [h]
  norm_num

/-- C5 amended: at `now = 1500` the schedule interpolator reports the
in-transit phase with interpolation parameter `t = 1/2` and latitude
exactly `40.5`, indices `0` and `1`; the window of the progress interpolator is
`t0 = 1000, t1 = arrival(next) + 60000 = 62000` (milliseconds), and its
value there is `10`: the lower endpoint of `[10, 20]`. -/
theorem c5_amended :
    (santa_pos_from_route [destA, destB] 1500 none).map Pos.phase =
      some Phase.inTransit ∧
    ((1500 - 1000 : ℤ) : ℚ) / ((max 1 (2000 - 1000) : ℤ) : ℚ) = 1 / 2 ∧
    (santa_pos_from_route [destA, destB] 1500 none).map Pos.lat = some (81 / 2) ∧
    (santa_pos_from_route [destA, destB] 1500 none).map Pos.idx = some 0 ∧
    (santa_pos_from_route [destA, destB] 1500 none).map Pos.nextIdx = some 1 ∧
    pdlT0 [destA, destB] 0 none = 1000 ∧
    pdlT1 [destA, destB] 1 none = 62000 ∧
    presents_dynamic_live [destA, destB] 0 1 1500 none = 10 ∧
    10 ≤ presents_dynamic_live [destA, destB] 0 1 1500 none ∧
    presents_dynamic_live [destA, destB] 0 1 1500 none ≤ 20 := by
  have hsort : sortDests [destA, destB] = [destA, destB] := by decide
  have hx : pdlX [destA, destB] 0 = 10 := by decide
  have hy : pdlY [destA, destB] 0 1 = 20 := by decide
  have ht0 : pdlT0 [destA, destB] 0 none = 1000 := by decide
  have ht1 : pdlT1 [destA, destB] 1 none = 62000 := by decide
  have hpdl : presents_dynamic_live [destA, destB] 0 1 1500 none = 10 := by
    rw [presents_dynamic_live]
    simp only [hsort, hx, hy, ht0, ht1]
    norm_num [pyRound, lerp, Int.fract, round_eq]
  have hcore : (santaPosCore destA [destB] 1500 none).lat = 81 / 2 := by
    norm_num [santaPosCore, scanLoop, computeShiftPos, destArr, destDep,
      destA, destB]
  have hlat : (santa_pos_from_route [destA, destB] 1500 none).map Pos.lat =
      some (81 / 2) := by
    rw [santa_pos_from_route, hsort]
    exact congrArg some hcore
  exact ⟨by decide, by norm_num, hlat, by decide, by decide, ht0, ht1, hpdl,
    by rw [hpdl], by rw [hpdl]; norm_num⟩

/-- Branch characterization of `presents_dynamic_live` in terms of its
observations (pure zeta-reduction of the definition). -/
theorem pdl_cases (destinations : List Dest) (idx next_idx : ℕ)
    (nowMs : ℤ) (takeoffMs : Option ℤ) :
    presents_dynamic_live destinations idx next_idx nowMs takeoffMs =
      if (sortDests destinations).isEmpty then 0
      else if min next_idx ((sortDests destinations).length - 1) =
              min idx ((sortDests destinations).length - 1) then
        pdlX destinations idx
      else if pdlT1 destinations next_idx takeoffMs ≤
                pdlT0 destinations idx takeoffMs then
        pdlY destinations idx next_idx
      else
        pyRound (lerp (pdlX destinations idx : ℚ)
          (pdlY destinations idx next_idx : ℚ)
          (max 0 (min 1 (((nowMs - pdlT0 destinations idx takeoffMs : ℤ) : ℚ) /
            ((pdlT1 destinations next_idx takeoffMs -
              pdlT0 destinations idx takeoffMs : ℤ) : ℚ))))) := rfl

/-- On an empty schedule `pdlX` degenerates to `0`. -/
theorem pdlX_of_empty {destinations : List Dest} (h : (sortDests destinations).isEmpty)
    (idx : ℕ) : pdlX destinations idx = 0 := by
  unfold pdlX
  simp [h]

/-- On an empty schedule `pdlY` degenerates to `0`. -/
theorem pdlY_of_empty {destinations : List Dest} (h : (sortDests destinations).isEmpty)
    (idx next_idx : ℕ) : pdlY destinations idx next_idx = 0 := by
  unfold pdlY
  simp [h]

/-- When the clamped indices coincide the extracted `y` equals `x`. -/
theorem pdlY_eq_pdlX (destinations : List Dest) (idx next_idx : ℕ)
    (h : min next_idx ((sortDests destinations).length - 1) =
         min idx ((sortDests destinations).length - 1)) :
    pdlY destinations idx next_idx = pdlX destinations idx := by
  unfold pdlY pdlX
  by_cases hemp : (sortDests destinations).isEmpty
  · simp [hemp]
  · simp [hemp, h]

/-- C6: for a fixed schedule and index pair with progress values
`X ≤ Y`, the progress interpolator is non-decreasing in `now`, bounded in
`[X, Y]`, and equals `Y` for every `now` at or after
`t1 = shiftedArrival[next] + 60 s`. -/
theorem c6_progress_monotone_bounded_reaches
    (destinations : List Dest) (idx next_idx : ℕ) (takeoffMs : Option ℤ)
    (now1 now2 : ℤ)
    (hxy : pdlX destinations idx ≤ pdlY destinations idx next_idx) :
    (now1 ≤ now2 →
      presents_dynamic_live destinations idx next_idx now1 takeoffMs ≤
      presents_dynamic_live destinations idx next_idx now2 takeoffMs) ∧
    pdlX destinations idx ≤
      presents_dynamic_live destinations idx next_idx now1 takeoffMs ∧
    presents_dynamic_live destinations idx next_idx now1 takeoffMs ≤
      pdlY destinations idx next_idx ∧
    (pdlT1 destinations next_idx takeoffMs ≤ now1 →
      presents_dynamic_live destinations idx next_idx now1 takeoffMs =
        pdlY destinations idx next_idx) := by
  rw [pdl_cases destinations idx next_idx now1 takeoffMs,
    pdl_cases destinations idx next_idx now2 takeoffMs]
  split_ifs with h1 h2 h3
  · rw [pdlX_of_empty h1 idx, pdlY_of_empty h1 idx next_idx]
    exact ⟨fun _ => le_refl _, le_refl _, le_refl _, fun _ => rfl⟩
  · rw [pdlY_eq_pdlX destinations idx next_idx h2]
    exact ⟨fun _ => le_refl _, le_refl _, le_refl _, fun _ => rfl⟩
  · exact ⟨fun _ => le_refl _, hxy, le_refl _, fun _ => rfl⟩
  · set X := pdlX destinations idx with hXdef
    set Y := pdlY destinations idx next_idx with hYdef
    set t0 := pdlT0 destinations idx takeoffMs with ht0def
    set t1 := pdlT1 destinations next_idx takeoffMs with ht1def
    have hlt : t0 < t1 := lt_of_not_le h3
    have hd : (0 : ℚ) < ((t1 - t0 : ℤ) : ℚ) := by
      exact_mod_cast Int.sub_pos.mpr hlt
    have hxq : (X : ℚ) ≤ (Y : ℚ) := by exact_mod_cast hxy
    have hclamp : ∀ n : ℤ,
        0 ≤ max 0 (min 1 (((n - t0 : ℤ) : ℚ) / ((t1 - t0 : ℤ) : ℚ))) ∧
        max 0 (min 1 (((n - t0 : ℤ) : ℚ) / ((t1 - t0 : ℤ) : ℚ))) ≤ 1 :=
      fun n => ⟨le_max_left _ _, max_le (by norm_num) (min_le_left _ _)⟩
    refine ⟨?_, ?_, ?_, ?_⟩
    · intro h12
      apply pyRound_mono
      have hnum : ((now1 - t0 : ℤ) : ℚ) ≤ ((now2 - t0 : ℤ) : ℚ) := by
        exact_mod_cast Int.sub_le_sub_right h12 t0
      have htm : max 0 (min 1 (((now1 - t0 : ℤ) : ℚ) / ((t1 - t0 : ℤ) : ℚ))) ≤
          max 0 (min 1 (((now2 - t0 : ℤ) : ℚ) / ((t1 - t0 : ℤ) : ℚ))) :=
        max_le_max (le_refl 0)
          (min_le_min (le_refl 1) ((div_le_div_iff_of_pos_right hd).mpr hnum))
      unfold lerp
      nlinarith [mul_nonneg (sub_nonneg.mpr hxq)
        (sub_nonneg.mpr htm)]
    · have hle : ((X : ℤ) : ℚ) ≤ lerp (X : ℚ) (Y : ℚ)
          (max 0 (min 1 (((now1 - t0 : ℤ) : ℚ) / ((t1 - t0 : ℤ) : ℚ)))) := by
        unfold lerp
        nlinarith [mul_nonneg (sub_nonneg.mpr hxq) (hclamp now1).1]
      have hmono := pyRound_mono hle
      rwa [pyRound_intCast] at hmono
    · have hle : lerp (X : ℚ) (Y : ℚ)
          (max 0 (min 1 (((now1 - t0 : ℤ) : ℚ) / ((t1 - t0 : ℤ) : ℚ)))) ≤
          ((Y : ℤ) : ℚ) := by
        unfold lerp
        nlinarith [mul_nonneg (sub_nonneg.mpr hxq)
          (sub_nonneg.mpr (hclamp now1).2)]
      have hmono := pyRound_mono hle
      rwa [pyRound_intCast] at hmono
    · intro hr
      have hnum : ((t1 - t0 : ℤ) : ℚ) ≤ ((now1 - t0 : ℤ) : ℚ) := by
        exact_mod_cast Int.sub_le_sub_right hr t0
      have hge1 : (1 : ℚ) ≤ ((now1 - t0 : ℤ) : ℚ) / ((t1 - t0 : ℤ) : ℚ) :=
        (one_le_div hd).mpr hnum
      rw [min_eq_left hge1, max_eq_right (by norm_num : (0 : ℚ) ≤ 1)]
      have hl : lerp (X : ℚ) (Y : ℚ) 1 = ((Y : ℤ) : ℚ) := by
        unfold lerp
        ring
      rw [hl, pyRound_intCast]

/-- C8: before the first shifted arrival the interpolator returns the first
sorted waypoint location, altitude 0, index 0, and next index 1 (0 for a
one-waypoint schedule). -/
theorem c8_pre_start (dests0 : List Dest) (nowMs : ℤ) (takeoffMs : Option ℤ)
    (d0 : Dest) (rest : List Dest)
    (hsort : sortDests dests0 = d0 :: rest)
    (hpre : nowMs < destArr d0 + computeShiftPos (d0 :: rest) takeoffMs) :
    santa_pos_from_route dests0 nowMs takeoffMs =
      some ⟨d0.lat, d0.lon, 0, 0, if 1 < (d0 :: rest).length then 1 else 0,
            Phase.preStart⟩ := by
  rw [santa_pos_from_route, hsort]
  exact congrArg some (if_pos hpre)

/-- Witness for C8 at an unsorted two-waypoint schedule and `now = 500`. -/
theorem c8_witness :
    sortDests [destB, destA] = destA :: [destB] ∧
    (500 : ℤ) < destArr destA + computeShiftPos (destA :: [destB]) none ∧
    santa_pos_from_route [destB, destA] 500 none =
      some ⟨destA.lat, destA.lon, 0, 0,
        if 1 < (destA :: [destB]).length then 1 else 0, Phase.preStart⟩ := by
  have h1 : sortDests [destB, destA] = destA :: [destB] := by decide
  have h2 : (500 : ℤ) < destArr destA + computeShiftPos (destA :: [destB]) none := by
    decide
  exact ⟨h1, h2, c8_pre_start [destB, destA] 500 none destA [destB] h1 h2⟩

/-- C9: at coincident points with equal altitude the geometry kernel
returns slant range 0 and (by its guarded branch) inclination 0, and for
all inputs the bearing lies in `[0, 360)`. -/
theorem c9_rbi_coincident_and_bearing_range :
    (∀ lat lon : ℝ,
      (compute_range_bearing_inclination lat lon 0 lat lon 0).1 = 0 ∧
      (compute_range_bearing_inclination lat lon 0 lat lon 0).2.2 = 0) ∧
    (∀ lat1 lon1 hae1 lat2 lon2 hae2 : ℝ,
      0 ≤ (compute_range_bearing_inclination lat1 lon1 hae1 lat2 lon2 hae2).2.1 ∧
      (compute_range_bearing_inclination lat1 lon1 hae1 lat2 lon2 hae2).2.1 < 360) := by
  have hz : deg2rad 0 = 0 := by
    unfold deg2rad
    ring
  constructor
  · intro lat lon
    unfold compute_range_bearing_inclination
    simp only [sub_self, hz]
    norm_num [atan2, Real.sin_zero, Real.sqrt_zero, Real.sqrt_one,
      Real.arctan_zero]
  · intro lat1 lon1 hae1 lat2 lon2 hae2
    exact pymod_mem (by norm_num) _

/-- Index and altitude invariants of the scan loop of
`santa_pos_from_route`. -/
theorem scanLoop_sound (l : List Dest) :
    ∀ (i : ℕ) (shift nowMs : ℤ) (total : ℕ), i + l.length = total →
      ∀ p, scanLoop shift nowMs total l i = some p →
        i ≤ p.idx ∧ p.idx ≤ p.nextIdx ∧ p.nextIdx ≤ p.idx + 1 ∧
        p.nextIdx ≤ total - 1 ∧
        (p.phase = Phase.onGround ∧ p.hae = 0 ∨
         p.phase = Phase.inTransit ∧ 0 ≤ p.hae ∧ p.hae ≤ MAX_ALT_M) := by
  induction l with
  | nil =>
    intro i shift nowMs total _ p hp
    simp [scanLoop] at hp
  | cons d rest ih =>
    intro i shift nowMs total htot p hp
    simp only [List.length_cons] at htot
    cases rest with
    | nil =>
      simp only [scanLoop] at hp
      by_cases h1 : destArr d + shift ≤ nowMs ∧ nowMs ≤ destDep d + shift
      · rw [if_pos h1] at hp
        injection hp with hp'
        subst hp'
        simp only [List.length_nil] at htot
        dsimp only
        refine ⟨le_refl i, le_min (Nat.le_succ i) (by omega), min_le_left _ _,
          min_le_right _ _, Or.inl ⟨rfl, rfl⟩⟩
      · rw [if_neg h1] at hp
        exact absurd hp (by simp)
    | cons nxt rest2 =>
      simp only [scanLoop] at hp
      simp only [List.length_cons] at htot
      by_cases h1 : destArr d + shift ≤ nowMs ∧ nowMs ≤ destDep d + shift
      · rw [if_pos h1] at hp
        injection hp with hp'
        subst hp'
        dsimp only
        refine ⟨le_refl i, le_min (Nat.le_succ i) (by omega), min_le_left _ _,
          min_le_right _ _, Or.inl ⟨rfl, rfl⟩⟩
      · rw [if_neg h1] at hp
        by_cases h2 : destDep d + shift < nowMs ∧ nowMs < destArr nxt + shift
        · rw [if_pos h2] at hp
          injection hp with hp'
          subst hp'
          dsimp only
          refine ⟨le_refl i, Nat.le_succ i, le_refl _, by omega,
            Or.inr ⟨rfl, altitude_bump_m_mem _⟩⟩
        · rw [if_neg h2] at hp
          have hrec := ih (i + 1) shift nowMs total (by
            simp only [List.length_cons]
            omega) p hp
          exact ⟨by omega, hrec.2.1, hrec.2.2.1, hrec.2.2.2.1, hrec.2.2.2.2⟩

/-- Totality: `santa_pos_from_route` succeeds on non-empty schedules. -/
theorem santa_pos_total (dests0 : List Dest) (nowMs : ℤ) (takeoffMs : Option ℤ)
    (h : dests0 ≠ []) :
    ∃ p, santa_pos_from_route dests0 nowMs takeoffMs = some p := by
  cases hs : sortDests dests0 with
  | nil =>
    exfalso
    apply h
    have hlen : (sortDests dests0).length = dests0.length :=
      List.length_insertionSort _ _
    rw [hs] at hlen
    exact List.eq_nil_of_length_eq_zero hlen.symm
  | cons d0 rest =>
    exact ⟨santaPosCore d0 rest nowMs takeoffMs, by rw [santa_pos_from_route, hs]⟩

/-- Invariants of one evaluation of the interpolator body. -/
theorem santaPosCore_sound (d0 : Dest) (rest : List Dest) (nowMs : ℤ)
    (takeoffMs : Option ℤ) :
    (santaPosCore d0 rest nowMs takeoffMs).idx ≤
      (santaPosCore d0 rest nowMs takeoffMs).nextIdx ∧
    (santaPosCore d0 rest nowMs takeoffMs).nextIdx ≤
      (santaPosCore d0 rest nowMs takeoffMs).idx + 1 ∧
    (santaPosCore d0 rest nowMs takeoffMs).nextIdx ≤ (d0 :: rest).length - 1 ∧
    ((santaPosCore d0 rest nowMs takeoffMs).phase ≠ Phase.inTransit →
      (santaPosCore d0 rest nowMs takeoffMs).hae = 0) ∧
    ((santaPosCore d0 rest nowMs takeoffMs).phase = Phase.inTransit →
      0 ≤ (santaPosCore d0 rest nowMs takeoffMs).hae ∧
      (santaPosCore d0 rest nowMs takeoffMs).hae ≤ MAX_ALT_M) := by
  by_cases h1 : nowMs < destArr d0 + computeShiftPos (d0 :: rest) takeoffMs
  · have hP : santaPosCore d0 rest nowMs takeoffMs =
        ⟨d0.lat, d0.lon, 0, 0, if 1 < (d0 :: rest).length then 1 else 0,
          Phase.preStart⟩ := by
      simp only [santaPosCore]
      rw [if_pos h1]
    rw [hP]
    dsimp only
    refine ⟨Nat.zero_le _, ?_, ?_, fun _ => rfl, fun hab => ?_⟩
    · split_ifs <;> omega
    · simp only [List.length_cons]
      split_ifs with hg
      · simp only [List.length_cons] at hg
        omega
      · omega
    · simp at hab
  · cases hsc : scanLoop (computeShiftPos (d0 :: rest) takeoffMs) nowMs
        (d0 :: rest).length (d0 :: rest) 0 with
    | some q =>
      have hP : santaPosCore d0 rest nowMs takeoffMs = q := by
        simp only [santaPosCore]
        rw [if_neg h1, hsc]
      rw [hP]
      have hsc' := scanLoop_sound (d0 :: rest) 0
        (computeShiftPos (d0 :: rest) takeoffMs) nowMs (d0 :: rest).length
        (by omega) q hsc
      refine ⟨hsc'.2.1, hsc'.2.2.1, hsc'.2.2.2.1, ?_, ?_⟩
      · intro hnt
        rcases hsc'.2.2.2.2 with ⟨_, hh⟩ | ⟨hph, _⟩
        · exact hh
        · exact absurd hph hnt
      · intro hit
        rcases hsc'.2.2.2.2 with ⟨hph, _⟩ | ⟨_, hh⟩
        · rw [hph] at hit
          exact absurd hit (by simp)
        · exact hh
    | none =>
      have hP : santaPosCore d0 rest nowMs takeoffMs =
          ⟨((d0 :: rest).getLast (List.cons_ne_nil _ _)).lat,
            ((d0 :: rest).getLast (List.cons_ne_nil _ _)).lon, 0,
            (d0 :: rest).length - 1, (d0 :: rest).length - 1,
            Phase.postEnd⟩ := by
        simp only [santaPosCore]
        rw [if_neg h1, hsc]
      rw [hP]
      dsimp only
      exact ⟨le_refl _, Nat.le_succ _, le_refl _, fun _ => rfl,
        fun hab => absurd hab (by simp)⟩

/-- C10: on every non-empty schedule, the interpolator indices satisfy
`idx ≤ nextIdx ≤ idx + 1` with `nextIdx` within range, the altitude is
exactly 0 off the in-transit branch, and lies in `[0, MAX_ALT_M]` on it. -/
theorem c10_interpolator_invariants (dests0 : List Dest) (nowMs : ℤ)
    (takeoffMs : Option ℤ) (hne : dests0 ≠ []) :
    ∃ p, santa_pos_from_route dests0 nowMs takeoffMs = some p ∧
      p.idx ≤ p.nextIdx ∧ p.nextIdx ≤ p.idx + 1 ∧
      p.nextIdx ≤ dests0.length - 1 ∧
      (p.phase ≠ Phase.inTransit → p.hae = 0) ∧
      (p.phase = Phase.inTransit → 0 ≤ p.hae ∧ p.hae ≤ MAX_ALT_M) := by
  have hlen : (sortDests dests0).length = dests0.length :=
    List.length_insertionSort _ _
  cases hs : sortDests dests0 with
  | nil =>
    exfalso
    apply hne
    rw [hs] at hlen
    exact List.eq_nil_of_length_eq_zero hlen.symm
  | cons d0 rest =>
    rw [hs] at hlen
    have hc := santaPosCore_sound d0 rest nowMs takeoffMs
    exact ⟨santaPosCore d0 rest nowMs takeoffMs,
      by rw [santa_pos_from_route, hs], hc.1, hc.2.1, hlen ▸ hc.2.2.1,
      hc.2.2.2.1, hc.2.2.2.2⟩

/-- Witness for C6 at the concrete two-waypoint schedule. -/
theorem c6_witness :
    pdlX [destA, destB] 0 ≤ pdlY [destA, destB] 0 1 ∧
    presents_dynamic_live [destA, destB] 0 1 1200 none ≤
      presents_dynamic_live [destA, destB] 0 1 1500 none ∧
    pdlX [destA, destB] 0 ≤ presents_dynamic_live [destA, destB] 0 1 1200 none ∧
    presents_dynamic_live [destA, destB] 0 1 1200 none ≤
      pdlY [destA, destB] 0 1 ∧
    presents_dynamic_live [destA, destB] 0 1 70000 none =
      pdlY [destA, destB] 0 1 := by
  have hxy : pdlX [destA, destB] 0 ≤ pdlY [destA, destB] 0 1 := by decide
  have h1 := c6_progress_monotone_bounded_reaches [destA, destB] 0 1 none
    1200 1500 hxy
  have h2 := c6_progress_monotone_bounded_reaches [destA, destB] 0 1 none
    70000 70000 hxy
  exact ⟨hxy, h1.1 (by norm_num), h1.2.1, h1.2.2.1, h2.2.2.2 (by decide)⟩

/-- C4 amended: the subject, destination, and range-bearing builders are
pure functions of their explicit inputs and the injected instant — their
output is independent of the ambient environment — while the delete builder
has no injectable instant and stamps the ambient fresh random identifier
into the event uid. -/
theorem c4_amended :
    (∀ (e1 e2 : Env) (t : ℤ) (lat lon : ℚ) (hae : ℝ) (pres : ℤ)
        (nd uid : String) (sm : ℤ),
      build_santa_cot lat lon hae pres nd uid sm (some t) e1 =
        build_santa_cot lat lon hae pres nd uid sm (some t) e2) ∧
    (∀ (e1 e2 : Env) (t : ℤ) (di : DestInfo) (uid : String) (sh : ℤ),
      build_goto_cot di uid sh (some t) e1 =
        build_goto_cot di uid sh (some t) e2) ∧
    (∀ (e1 e2 : Env) (t : ℤ) (la lo : ℚ) (ha : ℝ) (di : DestInfo)
        (pu ru uid : String) (sm : ℤ),
      build_rb_cot la lo ha di pu ru uid sm (some t) e1 =
        build_rb_cot la lo ha di pu ru uid sm (some t) e2) ∧
    (∀ (tgt : String) (ss : ℤ) (e : Env),
      (build_delete_cot tgt ss e).attrs.lookup ("uid") =
        some (.s e.freshUuid)) :=
  ⟨fun _ _ _ _ _ _ _ _ _ _ => rfl, fun _ _ _ _ _ _ => rfl,
   fun _ _ _ _ _ _ _ _ _ _ _ => rfl, fun _ _ _ => rfl⟩

/-- C4 counterexample: two delete-builder invocations with identical
explicit inputs at the same instant produce different encoded output,
because the event uid is fresh randomness, not an input. -/
theorem c4_counterexample :
    serialize (build_delete_cot ("RB-LINE-UUID") 5 ⟨0, "uuid-0001"⟩) ≠
    serialize (build_delete_cot ("RB-LINE-UUID") 5 ⟨0, "uuid-0002"⟩) := by
  decide

/-- C1 amended: a pre-live tick emits exactly the subject marker at the
North-Pole placeholder with the countdown text (timed with the feed
reported instant) followed by a delete for the range-bearing UID — but the
schedule interpolator is still invoked once, unconditionally, inside the
fetch step. -/
theorem c1_amended (info : Info) (routeDests : List Dest) (env : Env)
    (done : Bool) (hlive : api_is_live info = false) (hne : routeDests ≠ []) :
    run_once info routeDests env done =
      .ok ⟨[build_santa_cot NORTH_POLE_LAT NORTH_POLE_LON 0 0
              (format_countdown info) SANTA_UUID 5 (some (info.now.getD 0)) env,
            build_delete_cot RB_UUID 5 env], 1, done⟩ := by
  cases routeDests with
  | nil => exact absurd rfl hne
  | cons d0 rest =>
    have hlen : (sortDests (d0 :: rest)).length = (d0 :: rest).length :=
      List.length_insertionSort _ _
    cases hs : sortDests (d0 :: rest) with
    | nil =>
      rw [hs] at hlen
      simp at hlen
    | cons e0 erest =>
      have hpos : santa_pos_from_route (d0 :: rest) (info.now.getD 0)
          (takeoffOptOf info) =
          some (santaPosCore e0 erest (info.now.getD 0) (takeoffOptOf info)) := by
        rw [santa_pos_from_route, hs]
      simp only [run_once, hpos, hlive]
      rfl

/-- C1 counterexample: on a concrete pre-live tick the schedule
interpolator is invoked (once) during the fetch, contradicting "never
invokes the schedule interpolator". -/
theorem c1_counterexample :
    api_is_live info0 = false ∧
    (run_once info0 [dest0] env0 false).map RunResult.interpCalls =
      Except.ok 1 :=
  ⟨rfl, rfl⟩

/-- Witness for C1 at the concrete pre-live fixtures. -/
theorem c1_witness :
    api_is_live info0 = false ∧ ([dest0] : List Dest) ≠ [] ∧
    run_once info0 [dest0] env0 false =
      .ok ⟨[build_santa_cot NORTH_POLE_LAT NORTH_POLE_LON 0 0
              (format_countdown info0) SANTA_UUID 5 (some (info0.now.getD 0))
              env0,
            build_delete_cot RB_UUID 5 env0], 1, false⟩ :=
  ⟨rfl, by simp, c1_amended info0 [dest0] env0 false rfl (by simp)⟩

/-- The wrap-to-interval used by `gc_step` lands in `[-180, 180)`. -/
theorem pymod_shift_mem (a : ℝ) :
    -180 ≤ pymod a 360 - 180 ∧ pymod a 360 - 180 < 180 := by
  have h := pymod_mem (by norm_num : (0 : ℝ) < 360) a
  constructor <;> linarith [h.1, h.2]

/-- The angular separation of a point from itself is zero. -/
theorem gcDelta_self (lat lon : ℝ) : gcDelta lat lon lat lon = 0 := by
  unfold gcDelta
  simp only [sub_self]
  norm_num [Real.sin_zero, Real.sqrt_zero, Real.sqrt_one, atan2,
    Real.arctan_zero]

/-- Evaluation `deg2rad 0 = 0`. -/
theorem deg2rad_zero : deg2rad 0 = 0 := by
  unfold deg2rad
  ring

/-- Evaluation `deg2rad 180 = π`. -/
theorem deg2rad_180 : deg2rad 180 = Real.pi := by
  unfold deg2rad
  ring

/-- Evaluation `deg2rad 10 = π / 18`. -/
theorem deg2rad_10 : deg2rad 10 = Real.pi / 18 := by
  unfold deg2rad
  ring

/-- Evaluation `rad2deg π = 180`. -/
theorem rad2deg_pi : rad2deg Real.pi = 180 := by
  unfold rad2deg
  rw [mul_comm, mul_div_assoc, div_self Real.pi_ne_zero, mul_one]

/-- Evaluation `atan2 0 x = π` for negative `x` (CPython semantics on the negative
real axis). -/
theorem atan2_zero_neg {x : ℝ} (hx : x < 0) : atan2 0 x = Real.pi := by
  unfold atan2
  rw [if_neg (by linarith), if_pos hx, if_pos (le_refl (0 : ℝ))]
  simp [Real.arctan_zero]

/-- The angular separation between `(0, 180)` and `(10, 180)` is `π / 18`
(a ten-degree separation along the 180th meridian). -/
theorem gcDelta_pole : gcDelta 0 180 10 180 = Real.pi / 18 := by
  unfold gcDelta
  simp only [deg2rad_zero, deg2rad_180, deg2rad_10, sub_self, sub_zero,
    zero_div, Real.sin_zero, Real.cos_zero, one_mul, mul_zero, add_zero,
    ne_eq, OfNat.ofNat_ne_zero, not_false_eq_true, zero_pow]
  have h36 : Real.pi / 18 / 2 = Real.pi / 36 := by ring
  rw [h36]
  have hs : 0 ≤ Real.sin (Real.pi / 36) :=
    Real.sin_nonneg_of_nonneg_of_le_pi (by positivity)
      (by linarith [Real.pi_pos])
  have hc : 0 < Real.cos (Real.pi / 36) := by
    apply Real.cos_pos_of_mem_Ioo
    constructor
    · linarith [Real.pi_pos]
    · linarith [Real.pi_pos]
  have h1 : Real.sqrt (Real.sin (Real.pi / 36) ^ 2) = Real.sin (Real.pi / 36) :=
    Real.sqrt_sq hs
  have h2 : 1 - Real.sin (Real.pi / 36) ^ 2 = Real.cos (Real.pi / 36) ^ 2 := by
    have := Real.sin_sq_add_cos_sq (Real.pi / 36)
    linarith
  have h3 : Real.sqrt (Real.cos (Real.pi / 36) ^ 2) = Real.cos (Real.pi / 36) :=
    Real.sqrt_sq hc.le
  rw [h1, h2, h3]
  unfold atan2
  rw [if_pos hc, ← Real.tan_eq_sin_div_cos,
    Real.arctan_tan (by linarith [Real.pi_pos]) (by linarith [Real.pi_pos])]
  ring

/-- At `(0,180) → (10,180)` with a 1000 m step, the clamp picks the step
angle `1/6371`. -/
theorem gcStepAngle_pole : gcStepAngle 0 180 10 180 1000 = 1 / 6371 := by
  unfold gcStepAngle
  rw [gcDelta_pole, show (1000 : ℝ) / 6371000 = 1 / 6371 by norm_num]
  apply min_eq_left
  have h3 := Real.pi_gt_three
  have : (1 : ℝ) / 6 ≤ Real.pi / 18 := by linarith
  linarith [show (1 : ℝ) / 6371 ≤ 1 / 6 by norm_num]

/-- Evaluation of the wrap at 720: Python float `720 % 360 = 0`. -/
theorem pymod_720 : pymod (180 + 540 : ℝ) 360 = 0 := by
  unfold pymod
  norm_num

/-- C3 amended: a zero angular separation returns `p1` unchanged, the step
angle is clamped so it never exceeds the remaining angular separation, and
on the stepping branch the longitude is normalized into `[-180, 180)` —
not `(-180, 180]`: the wrap `(deg + 540) % 360 - 180` attains `-180` and
never `+180`. -/
theorem c3_amended (lat1 lon1 lat2 lon2 stepM : ℝ) :
    (gcDelta lat1 lon1 lat2 lon2 = 0 →
      gc_step lat1 lon1 lat2 lon2 stepM = (lat1, lon1)) ∧
    gcStepAngle lat1 lon1 lat2 lon2 stepM ≤ gcDelta lat1 lon1 lat2 lon2 ∧
    (gcDelta lat1 lon1 lat2 lon2 ≠ 0 →
      -180 ≤ (gc_step lat1 lon1 lat2 lon2 stepM).2 ∧
      (gc_step lat1 lon1 lat2 lon2 stepM).2 < 180) := by
  refine ⟨?_, min_le_right _ _, ?_⟩
  · intro h
    simp only [gc_step]
    rw [if_pos h]
  · intro h
    simp only [gc_step]
    rw [if_neg h]
    dsimp only
    exact ⟨(pymod_shift_mem _).1, (pymod_shift_mem _).2⟩

/-- C3 counterexample: stepping from `(0, 180)` toward `(10, 180)` by
1000 m produces longitude exactly `-180`, which is outside `(-180, 180]`. -/
theorem c3_counterexample :
    (gc_step 0 180 10 180 1000).2 = -180 ∧
    ¬ (-180 < (gc_step 0 180 10 180 1000).2) := by
  have hδne : gcDelta 0 180 10 180 ≠ 0 := by
    rw [gcDelta_pole]
    positivity
  have hπ := Real.pi_pos
  have h3 := Real.pi_gt_three
  have hsin18 : 0 < Real.sin (Real.pi / 18) :=
    Real.sin_pos_of_pos_of_lt_pi (by linarith) (by linarith)
  have hA : 0 ≤ Real.sin (Real.pi / 18 - 1 / 6371) / Real.sin (Real.pi / 18) := by
    apply div_nonneg _ hsin18.le
    apply Real.sin_nonneg_of_nonneg_of_le_pi
    · have : (1 : ℝ) / 6371 ≤ 1 / 6 := by norm_num
      linarith
    · linarith
  have hB : 0 < Real.sin (1 / 6371) / Real.sin (Real.pi / 18) := by
    apply div_pos _ hsin18
    apply Real.sin_pos_of_pos_of_lt_pi
    · norm_num
    · have : (1 : ℝ) / 6371 ≤ 1 / 6 := by norm_num
      linarith
  have hcos18 : 0 < Real.cos (Real.pi / 18) := by
    apply Real.cos_pos_of_mem_Ioo
    constructor
    · linarith
    · linarith
  have hmain : (gc_step 0 180 10 180 1000).2 = -180 := by
    simp only [gc_step]
    rw [if_neg hδne]
    dsimp only
    simp only [gcDelta_pole, gcStepAngle_pole, deg2rad_zero, deg2rad_180,
      deg2rad_10, Real.sin_pi, Real.cos_pi, Real.cos_zero, Real.sin_zero,
      mul_zero, zero_mul, mul_one, one_mul, mul_neg_one, add_zero, zero_add]
    rw [atan2_zero_neg (by nlinarith [mul_pos hB hcos18]), rad2deg_pi,
      pymod_720]
    norm_num
  exact ⟨hmain, by rw [hmain]; norm_num⟩

/-- Witness for C3: the coincident-point branch fires at `p1 = p2 = (0,0)`
(separation exactly 0), and the stepping branch at the meridian-180 pair
keeps the longitude inside `[-180, 180)`. -/
theorem c3_witness :
    (gcDelta 0 0 0 0 = 0 ∧ gc_step 0 0 0 0 1000 = (0, 0)) ∧
    (gcDelta 0 180 10 180 ≠ 0 ∧
      -180 ≤ (gc_step 0 180 10 180 1000).2 ∧
      (gc_step 0 180 10 180 1000).2 < 180) := by
  have h0 : gcDelta 0 0 0 0 = 0 := gcDelta_self 0 0
  have hne : gcDelta 0 180 10 180 ≠ 0 := by
    rw [gcDelta_pole]
    positivity
  have hb := (c3_amended 0 180 10 180 1000).2.2 hne
  exact ⟨⟨h0, (c3_amended 0 0 0 0 1000).1 h0⟩, hne, hb.1, hb.2⟩

/-- Witness for C10 at the concrete two-waypoint schedule. -/
theorem c10_witness :
    ([destA, destB] : List Dest) ≠ [] ∧
    (∃ p, santa_pos_from_route [destA, destB] 1500 none = some p ∧
      p.idx ≤ p.nextIdx ∧ p.nextIdx ≤ p.idx + 1 ∧
      p.nextIdx ≤ ([destA, destB] : List Dest).length - 1 ∧
      (p.phase ≠ Phase.inTransit → p.hae = 0) ∧
      (p.phase = Phase.inTransit → 0 ≤ p.hae ∧ p.hae ≤ MAX_ALT_M)) :=
  ⟨by simp, c10_interpolator_invariants [destA, destB] 1500 none (by simp)⟩

end Santa
